import Mathlib

/-!
Verification of the risk-evaluation logic of the Diabetes-Model app
(`src/app.py`): the health-score arithmetic, the healthy-range
comparison, the recommendation lookup, and the completeness check
on the predict button. Python floats are modelled as rationals; the
classifier is an opaque capability record.
-/

namespace Diabetes

/-- The five clinical attributes, in the declaration order of the
`healthy_ranges` dict in `src/app.py` (lines 61-67). -/
inductive Attr where
  | glucose
  | bloodPressure
  | insulin
  | bmi
  | age
deriving DecidableEq, Repr, Fintype

/-- `categories = list(healthy_ranges.keys())` (line 105): Python dicts keep
insertion order, so this is the fixed declaration order. -/
def categories : List Attr :=
  [Attr.glucose, Attr.bloodPressure, Attr.insulin, Attr.bmi, Attr.age]

/-- The `healthy_ranges` table, `(low, high)` per attribute (lines 61-67). -/
def healthy_ranges : Attr → ℚ × ℚ
  | Attr.glucose => (70, 140)
  | Attr.bloodPressure => (60, 120)
  | Attr.insulin => (16, 166)
  | Attr.bmi => (37/2, 249/10)
  | Attr.age => (18, 50)

/-- `healthy_targets` (line 68): midpoint of each range. -/
def healthy_targets (cat : Attr) : ℚ :=
  ((healthy_ranges cat).1 + (healthy_ranges cat).2) / 2

/-- A complete patient reading: the five numeric fields plus the
location string, as gathered by `user_input` (lines 42-54). -/
structure PatientReading where
  glucose : ℚ
  blood_pressure : ℚ
  insulin : ℚ
  bmi : ℚ
  age : ℚ
  location : String
deriving DecidableEq, Repr

/-- `patient_values` (line 106), indexed by attribute. -/
def patient_values (r : PatientReading) : Attr → ℚ
  | Attr.glucose => r.glucose
  | Attr.bloodPressure => r.blood_pressure
  | Attr.insulin => r.insulin
  | Attr.bmi => r.bmi
  | Attr.age => r.age

/-- The feature vector `np.array([[glucose, blood_pressure, insulin, bmi, age]])`
(line 77). -/
def features (r : PatientReading) : List ℚ :=
  [r.glucose, r.blood_pressure, r.insulin, r.bmi, r.age]

/-- The loaded classifier, an opaque external capability: `predict` always
succeeds; `predict_proba` is `none` when the capability is absent or raises
(the bare `except` on line 82 catches both), otherwise it returns the
probability of class 1 (`[0][1]`, a fraction in [0,1] for a real model,
but unconstrained here). -/
structure Classifier where
  predict : List ℚ → ℤ
  predict_proba : Option (List ℚ → ℚ)

/-- `proba` (lines 80-83): `model.predict_proba(features)[0][1] * 100`,
with fallback `50` when the capability is absent or raises. -/
def proba (m : Classifier) (x : List ℚ) : ℚ :=
  match m.predict_proba with
  | some f => f x * 100
  | none => 50

/-- Python `int()` applied to a real number: truncation toward zero. -/
def py_int (x : ℚ) : ℤ :=
  if 0 ≤ x then ⌊x⌋ else ⌈x⌉

/-- `health_score = int(100 - proba)` (line 85). -/
def health_score (p : ℚ) : ℤ :=
  py_int (100 - p)

/-- Modelled from the spec: Python `round()` to the nearest integer with
ties to even, used by the spec phrase `100 − round(probability×100)`;
the source itself never calls `round`. -/
def py_round (x : ℚ) : ℤ :=
  if x - ⌊x⌋ < 1/2 then ⌊x⌋
  else if 1/2 < x - ⌊x⌋ then ⌊x⌋ + 1
  else if ⌊x⌋ % 2 = 0 then ⌊x⌋ else ⌊x⌋ + 1

/-- The attention message appended on line 120 for an out-of-range
attribute; the low/high interpolations are constants per attribute. -/
def attentionMsg : Attr → String
  | Attr.glucose => "- **Glucose** is outside the healthy range (70–140)."
  | Attr.bloodPressure => "- **Blood Pressure** is outside the healthy range (60–120)."
  | Attr.insulin => "- **Insulin** is outside the healthy range (16–166)."
  | Attr.bmi => "- **BMI** is outside the healthy range (18.5–24.9)."
  | Attr.age => "- **Age** is outside the healthy range (18–50)."

/-- The out-of-range test of line 118: `val < low or val > high`. -/
def out_of_range (cat : Attr) (val : ℚ) : Bool :=
  decide (val < (healthy_ranges cat).1 ∨ (healthy_ranges cat).2 < val)

/-- The chart loop (lines 113-122): one pass over `categories`
accumulating the bar colours and the attention messages. -/
def chart (r : PatientReading) : List String × List String :=
  categories.foldl
    (fun acc cat =>
      if out_of_range cat (patient_values r cat) then
        (acc.1 ++ ["#E74C3C"], acc.2 ++ [attentionMsg cat])
      else
        (acc.1 ++ ["#27AE60"], acc.2))
    ([], [])

/-- The `tips` dict (lines 143-149), kept as an association list as in
the source. -/
def tips : List (Attr × String) :=
  [(Attr.glucose, "Consider reducing sugar intake and increasing physical activity."),
   (Attr.bloodPressure, "Try reducing salt intake and managing stress."),
   (Attr.insulin, "Consult with a doctor about insulin resistance and diet control."),
   (Attr.bmi, "A balanced diet and regular exercise may help improve BMI."),
   (Attr.age, "Regular health checkups are recommended.")]

/-- Dict lookup on the association list. -/
def tipLookup : List (Attr × String) → Attr → Option String
  | [], _ => none
  | (k, v) :: rest, cat => if cat = k then some v else tipLookup rest cat

/-- The tip string shown for an attribute: `tips[cat]`. -/
def tipText (cat : Attr) : String :=
  (tipLookup tips cat).getD ""

/-- The tips loop (lines 150-155): guarded by `if attention_needed:`, a
second, independent pass over `categories` re-running the comparison of
line 154 and emitting `tips[cat]` for each out-of-range attribute. The
dict access is modelled as a lookup; `tips` contains every key, so the
lookup never misses (see the completeness conjunct of the C5 theorem). -/
def tipsShown (r : PatientReading) : List String :=
  if (chart r).2 = [] then []
  else
    categories.foldl
      (fun acc cat =>
        if decide (patient_values r cat < (healthy_ranges cat).1 ∨
                   (healthy_ranges cat).2 < patient_values r cat) then
          acc ++ (tipLookup tips cat).toList
        else acc)
      []

/-- The result of one evaluation, gathering everything the report shows:
prediction label, probability, health score, chart colours, attention
messages and tip strings. -/
structure EvaluationResult where
  prediction : ℤ
  probability : ℚ
  score : ℤ
  colors : List String
  attention_needed : List String
  tips_shown : List String
deriving DecidableEq, Repr

/-- The whole evaluation (lines 77-155) as one pure function of the
reading and the classifier. -/
def evaluate (r : PatientReading) (m : Classifier) : EvaluationResult :=
  let x := features r
  let pr := proba m x
  { prediction := m.predict x
    probability := pr
    score := health_score pr
    colors := (chart r).1
    attention_needed := (chart r).2
    tips_shown := tipsShown r }

/-- Tab 3 (lines 136-140) is in the no-attention state when
`attention_needed` is empty. -/
def noAttentionState (res : EvaluationResult) : Bool :=
  res.attention_needed.isEmpty

/-- The raw sidebar state at the time the predict button fires:
`st.number_input(..., value=None)` yields `None` until the user types a
value, `st.text_input` yields a string (empty by default). -/
structure RawInput where
  glucose : Option ℚ
  blood_pressure : Option ℚ
  insulin : Option ℚ
  bmi : Option ℚ
  age : Option ℚ
  location : String
deriving DecidableEq, Repr

/-- Outcome of pressing the predict button. -/
inductive PredictOutcome where
  | warning
  | report (res : EvaluationResult)
deriving DecidableEq, Repr

/-- The predict-button handler (lines 73-155): the completeness check of
line 74 (`None in [glucose, blood_pressure, insulin, bmi, age] or
location == ""`) guards the whole evaluation. -/
def predictAction (i : RawInput) (m : Classifier) : PredictOutcome :=
  match i.glucose, i.blood_pressure, i.insulin, i.bmi, i.age with
  | some g, some bp, some ins, some b, some a =>
      if i.location = "" then PredictOutcome.warning
      else PredictOutcome.report (evaluate ⟨g, bp, ins, b, a, i.location⟩ m)
  | _, _, _, _, _ => PredictOutcome.warning

/-! ### Helper lemmas -/

/-- Unrolling the chart fold: colours are a map over the categories,
attention messages a map over the out-of-range filter. -/
theorem chart_fold_aux (p : Attr → Bool) (msg : Attr → String) :
    ∀ (l : List Attr) (a : List String × List String),
      l.foldl
        (fun acc cat =>
          if p cat then (acc.1 ++ ["#E74C3C"], acc.2 ++ [msg cat])
          else (acc.1 ++ ["#27AE60"], acc.2)) a
      = (a.1 ++ l.map (fun cat => if p cat then "#E74C3C" else "#27AE60"),
         a.2 ++ (l.filter p).map msg)
  | [], a => by simp
  | cat :: l, a => by
      by_cases h : p cat <;>
        simp [h, List.foldl, chart_fold_aux p msg l]

/-- Unrolling a fold that appends a block per selected element. -/
theorem collect_fold_aux (p : Attr → Bool) (g : Attr → List String) :
    ∀ (l : List Attr) (a : List String),
      l.foldl (fun acc cat => if p cat then acc ++ g cat else acc) a
      = a ++ ((l.filter p).map g).flatten
  | [], a => by simp
  | cat :: l, a => by
      by_cases h : p cat <;>
        simp [h, List.foldl, collect_fold_aux p g l]

/-- The attributes currently out of range, in declaration order. -/
def outAttrs (r : PatientReading) : List Attr :=
  categories.filter fun cat => out_of_range cat (patient_values r cat)

theorem chart_eq (r : PatientReading) :
    chart r
      = (categories.map
           (fun cat => if out_of_range cat (patient_values r cat)
                       then "#E74C3C" else "#27AE60"),
         (outAttrs r).map attentionMsg) := by
  unfold chart outAttrs
  rw [chart_fold_aux (fun cat => out_of_range cat (patient_values r cat)) attentionMsg]
  simp

/-- Every attribute has an entry in the `tips` dict. -/
theorem tipLookup_eq (cat : Attr) : tipLookup tips cat = some (tipText cat) := by
  cases cat <;> rfl

theorem flatten_map_singleton (f : Attr → String) :
    ∀ l : List Attr, ((l.map fun cat => [f cat]).flatten) = l.map f
  | [] => rfl
  | cat :: l => by simp [flatten_map_singleton f l]

theorem tipsShown_eq (r : PatientReading) :
    tipsShown r = (outAttrs r).map tipText := by
  unfold tipsShown
  by_cases h : (chart r).2 = []
  · have hout : outAttrs r = [] := by
      have := chart_eq r
      rw [this] at h
      simpa using h
    simp [h, hout]
  · rw [if_neg h]
    rw [collect_fold_aux
      (fun cat => decide (patient_values r cat < (healthy_ranges cat).1 ∨
        (healthy_ranges cat).2 < patient_values r cat))
      (fun cat => (tipLookup tips cat).toList)]
    have hfilter :
        (categories.filter fun cat =>
          decide (patient_values r cat < (healthy_ranges cat).1 ∨
            (healthy_ranges cat).2 < patient_values r cat)) = outAttrs r := by
      unfold outAttrs out_of_range
      rfl
    rw [hfilter]
    have hmap : (outAttrs r).map (fun cat => (tipLookup tips cat).toList)
        = (outAttrs r).map (fun cat => [tipText cat]) := by
      refine List.map_congr_left ?_
      intro cat _
      rw [tipLookup_eq cat]
      rfl
    rw [hmap, flatten_map_singleton]
    simp

/-- For a probability in [0,100] percent, `int(100 - p)` is the floor of
`100 - p`, which is `100 - ⌈p⌉`. -/
theorem health_score_floor (p : ℚ) (h1 : p ≤ 100) :
    health_score p = ⌊(100 : ℚ) - p⌋ := by
  unfold health_score py_int
  rw [if_pos (by linarith)]

theorem health_score_bounds (p : ℚ) (h0 : 0 ≤ p) (h1 : p ≤ 100) :
    0 ≤ health_score p ∧ health_score p ≤ 100 := by
  rw [health_score_floor p h1]
  constructor
  · exact Int.floor_nonneg.mpr (by linarith)
  · have hle := Int.floor_le ((100 : ℚ) - p)
    have h2 : (100 : ℚ) - p ≤ 100 := by linarith
    exact_mod_cast hle.trans h2

theorem health_score_at_62_5 : health_score (62/5) = 87 := by
  rw [health_score_floor (62/5) (by norm_num)]
  norm_num

theorem py_round_at_62_5 : py_round (62/5) = 12 := by
  unfold py_round
  norm_num

theorem health_score_at_150 : health_score 150 = -50 := by
  unfold health_score py_int
  rw [if_neg (by norm_num)]
  norm_num
  rw [show ((-50 : ℚ)) = ((-50 : ℤ) : ℚ) by norm_num, Int.ceil_intCast]

theorem health_score_at_neg10 : health_score (-10) = 110 := by
  unfold health_score py_int
  rw [if_pos (by norm_num)]
  norm_num

theorem health_score_at_50 : health_score 50 = 50 := by
  rw [health_score_floor 50 (by norm_num)]
  norm_num

theorem attentionMsg_injective : Function.Injective attentionMsg := by
  decide

theorem tipText_injective : Function.Injective tipText := by
  decide

theorem mem_map_filter_iff (f : Attr → String) (hf : Function.Injective f)
    (p : Attr → Bool) (cat : Attr) (hcat : cat ∈ categories) :
    f cat ∈ (categories.filter p).map f ↔ p cat = true := by
  constructor
  · intro hmem
    rcases List.mem_map.mp hmem with ⟨c, hc, hfc⟩
    rcases List.mem_filter.mp hc with ⟨-, hpc⟩
    rwa [hf hfc] at hpc
  · intro hp
    exact List.mem_map.mpr ⟨cat, List.mem_filter.mpr ⟨hcat, hp⟩, rfl⟩

/-! ### Claim theorems -/

/-- C1, counterexample: at a probability of 12.4 percent the code
computes `int(100 - 12.4) = 87`, while `100 - round(12.4) = 88`: the
score is the truncation of `100 - percent`, not `100 - round(percent)`. -/
theorem c1_counterexample :
    health_score (62/5) = 87 ∧ (100 : ℤ) - py_round (62/5) = 88 ∧
    health_score (62/5) ≠ 100 - py_round (62/5) := by
  refine ⟨health_score_at_62_5, ?_, ?_⟩
  · rw [py_round_at_62_5]
    norm_num
  · rw [health_score_at_62_5, py_round_at_62_5]
    norm_num

/-- C1 (amended): for a probability percent in [0,100] the health score
is `100 - ⌈percent⌉` — the truncation of `100 - percent`, not
`100 - round(percent)` — an integer in [0,100] with
`100 - percent - 1 < health_score ≤ 100 - percent`. -/
theorem c1_health_score_truncation (p : ℚ) (h0 : 0 ≤ p) (h1 : p ≤ 100) :
    health_score p = 100 - ⌈p⌉ ∧
    0 ≤ health_score p ∧ health_score p ≤ 100 ∧
    (100 : ℚ) - p - 1 < (health_score p : ℚ) ∧
    (health_score p : ℚ) ≤ 100 - p := by
  have hfl := health_score_floor p h1
  have hbd := health_score_bounds p h0 h1
  refine ⟨?_, hbd.1, hbd.2, ?_, ?_⟩
  · rw [hfl]
    have hrw : (100 : ℚ) - p = -p + ((100 : ℤ) : ℚ) := by push_cast; ring
    rw [hrw, Int.floor_add_int, Int.floor_neg]
    ring
  · rw [hfl]
    exact Int.sub_one_lt_floor _
  · rw [hfl]
    exact Int.floor_le _

theorem c1_health_score_truncation_witness :
    health_score (62/5) = 100 - ⌈(62/5 : ℚ)⌉ ∧
    0 ≤ health_score (62/5) ∧ health_score (62/5) ≤ 100 ∧
    (100 : ℚ) - 62/5 - 1 < (health_score (62/5) : ℚ) ∧
    (health_score (62/5) : ℚ) ≤ 100 - 62/5 :=
  c1_health_score_truncation (62/5) (by norm_num) (by norm_num)

/-- C2, counterexample: a probability of 150 percent (outside the valid
range) is not clamped: the reported score is −50, which is negative. -/
theorem c2_counterexample :
    health_score 150 = -50 ∧ health_score 150 < 0 := by
  refine ⟨health_score_at_150, ?_⟩
  rw [health_score_at_150]
  norm_num

/-- C2 (amended): the evaluator applies no clamping. For probabilities
in [0,100] the score happens to land in [0,100], but an out-of-range
probability produces an out-of-range score (150 → −50, −10 → 110). -/
theorem c2_no_clamping :
    (∀ p : ℚ, 0 ≤ p → p ≤ 100 → 0 ≤ health_score p ∧ health_score p ≤ 100) ∧
    health_score 150 = -50 ∧ health_score (-10) = 110 := by
  exact ⟨fun p h0 h1 => health_score_bounds p h0 h1,
    health_score_at_150, health_score_at_neg10⟩

theorem c2_no_clamping_witness :
    0 ≤ health_score 30 ∧ health_score 30 ≤ 100 :=
  c2_no_clamping.1 30 (by norm_num) (by norm_num)

/-- C3: when the predict_proba capability is absent (or raises, which
the bare except folds into the same case), the probability is 50
percent and the health score is exactly 50. -/
theorem c3_fallback (r : PatientReading) (m : Classifier)
    (h : m.predict_proba = none) :
    (evaluate r m).probability = 50 ∧ (evaluate r m).score = 50 := by
  have hp : (evaluate r m).probability = 50 := by
    show proba m (features r) = 50
    unfold proba
    rw [h]
  refine ⟨hp, ?_⟩
  show health_score (proba m (features r)) = 50
  have hp2 : proba m (features r) = 50 := hp
  rw [hp2]
  exact health_score_at_50

theorem c3_fallback_witness :
    (evaluate ⟨110, 80, 85, 22, 35, "Narowal"⟩ ⟨fun _ => 0, none⟩).probability = 50 ∧
    (evaluate ⟨110, 80, 85, 22, 35, "Narowal"⟩ ⟨fun _ => 0, none⟩).score = 50 :=
  c3_fallback ⟨110, 80, 85, 22, 35, "Narowal"⟩ ⟨fun _ => 0, none⟩ rfl

/-- C4: an attribute is out of range exactly when its value is strictly
below the low bound or strictly above the high bound; values exactly at
either bound are classified healthy. -/
theorem c4_boundary_inclusive (cat : Attr) (val : ℚ) :
    (out_of_range cat val = true ↔
      val < (healthy_ranges cat).1 ∨ (healthy_ranges cat).2 < val) ∧
    out_of_range cat (healthy_ranges cat).1 = false ∧
    out_of_range cat (healthy_ranges cat).2 = false := by
  refine ⟨by simp [out_of_range], ?_, ?_⟩ <;>
    cases cat <;>
    (unfold out_of_range;
     exact decide_eq_false (by norm_num [healthy_ranges, not_or]))

theorem c4_boundary_inclusive_witness :
    out_of_range Attr.glucose 70 = false ∧
    out_of_range Attr.glucose 140 = false :=
  ⟨(c4_boundary_inclusive Attr.glucose 70).2.1,
   (c4_boundary_inclusive Attr.glucose 140).2.2⟩

/-- C5: the out-of-range attributes are collected as a filter of the
fixed declaration-order list Glucose, Blood Pressure, Insulin, BMI,
Age; the attention messages and the tip strings are maps over that same
filtered list (one per out-of-range attribute, same order); and the tip
lookup table has an entry for every attribute. -/
theorem c5_fixed_order (r : PatientReading) (m : Classifier) :
    categories = [Attr.glucose, Attr.bloodPressure, Attr.insulin, Attr.bmi, Attr.age] ∧
    outAttrs r = categories.filter (fun cat => out_of_range cat (patient_values r cat)) ∧
    (evaluate r m).attention_needed = (outAttrs r).map attentionMsg ∧
    (evaluate r m).tips_shown = (outAttrs r).map tipText ∧
    (∀ cat, (tipLookup tips cat).isSome = true) := by
  refine ⟨rfl, rfl, ?_, tipsShown_eq r, ?_⟩
  · show (chart r).2 = (outAttrs r).map attentionMsg
    rw [chart_eq]
  · intro cat
    rw [tipLookup_eq]
    rfl

theorem c5_fixed_order_witness :
    categories = [Attr.glucose, Attr.bloodPressure, Attr.insulin, Attr.bmi, Attr.age] :=
  (c5_fixed_order ⟨110, 80, 85, 22, 35, "Narowal"⟩ ⟨fun _ => 0, none⟩).1

/-- C6: pressing predict warns exactly when one of the five numeric
fields is unset or the location is the empty string — and then nothing
is evaluated; otherwise the evaluation runs on the entered values and a
report is produced. -/
theorem c6_completeness_gate (i : RawInput) (m : Classifier) :
    (predictAction i m = PredictOutcome.warning ↔
      (i.glucose = none ∨ i.blood_pressure = none ∨ i.insulin = none ∨
       i.bmi = none ∨ i.age = none ∨ i.location = "")) ∧
    (∀ g bp ins b a, i.glucose = some g → i.blood_pressure = some bp →
      i.insulin = some ins → i.bmi = some b → i.age = some a →
      i.location ≠ "" →
      predictAction i m
        = PredictOutcome.report (evaluate ⟨g, bp, ins, b, a, i.location⟩ m)) := by
  obtain ⟨og, obp, oins, ob, oa, loc⟩ := i
  refine ⟨?_, ?_⟩
  · cases og <;> cases obp <;> cases oins <;> cases ob <;> cases oa <;>
      by_cases hl : loc = "" <;>
      simp [predictAction, hl]
  · intro g bp ins b a hg hbp hins hb ha hl
    cases og <;> cases obp <;> cases oins <;> cases ob <;> cases oa <;>
      simp_all [predictAction]

theorem c6_completeness_gate_witness :
    predictAction ⟨none, some 80, some 85, some 22, some 35, "Narowal"⟩
        ⟨fun _ => 0, none⟩
      = PredictOutcome.warning :=
  (c6_completeness_gate ⟨none, some 80, some 85, some 22, some 35, "Narowal"⟩
    ⟨fun _ => 0, none⟩).1.mpr (Or.inl rfl)

/-- C7: when every attribute is within its healthy range the attention
list is empty, no tips are shown, and the report is in the no-attention
state. -/
theorem c7_all_in_range (r : PatientReading) (m : Classifier)
    (h : ∀ cat, out_of_range cat (patient_values r cat) = false) :
    (evaluate r m).attention_needed = [] ∧
    (evaluate r m).tips_shown = [] ∧
    noAttentionState (evaluate r m) = true := by
  have hout : outAttrs r = [] := by
    simp [outAttrs, categories, List.filter, h]
  have hatt : (evaluate r m).attention_needed = [] := by
    show (chart r).2 = []
    rw [chart_eq, hout]
    rfl
  refine ⟨hatt, ?_, ?_⟩
  · show tipsShown r = []
    rw [tipsShown_eq, hout]
    rfl
  · unfold noAttentionState
    rw [hatt]
    rfl

theorem c7_all_in_range_witness :
    (evaluate ⟨110, 80, 85, 22, 35, "Narowal"⟩ ⟨fun _ => 0, none⟩).attention_needed = [] ∧
    (evaluate ⟨110, 80, 85, 22, 35, "Narowal"⟩ ⟨fun _ => 0, none⟩).tips_shown = [] ∧
    noAttentionState (evaluate ⟨110, 80, 85, 22, 35, "Narowal"⟩ ⟨fun _ => 0, none⟩) = true :=
  c7_all_in_range ⟨110, 80, 85, 22, 35, "Narowal"⟩ ⟨fun _ => 0, none⟩ (by
    intro cat
    cases cat <;>
      (unfold out_of_range;
       exact decide_eq_false (by norm_num [patient_values, healthy_ranges, not_or])))

/-- C8: the evaluation is a pure deterministic function of the reading
and the classifier: equal inputs give an equal result, in particular
equal score, attention list and tip list. -/
theorem c8_deterministic (r₁ r₂ : PatientReading) (m₁ m₂ : Classifier)
    (hr : r₁ = r₂) (hm : m₁ = m₂) :
    evaluate r₁ m₁ = evaluate r₂ m₂ ∧
    (evaluate r₁ m₁).score = (evaluate r₂ m₂).score ∧
    (evaluate r₁ m₁).attention_needed = (evaluate r₂ m₂).attention_needed ∧
    (evaluate r₁ m₁).tips_shown = (evaluate r₂ m₂).tips_shown := by
  subst hr
  subst hm
  exact ⟨rfl, rfl, rfl, rfl⟩

theorem c8_deterministic_witness :
    evaluate ⟨110, 80, 85, 22, 35, "Narowal"⟩ ⟨fun _ => 0, none⟩
      = evaluate ⟨110, 80, 85, 22, 35, "Narowal"⟩ ⟨fun _ => 0, none⟩ :=
  (c8_deterministic ⟨110, 80, 85, 22, 35, "Narowal"⟩ ⟨110, 80, 85, 22, 35, "Narowal"⟩
    ⟨fun _ => 0, none⟩ ⟨fun _ => 0, none⟩ rfl rfl).1

/-- C9: the chart loop and the tips loop compute the out-of-range test
independently, and they agree: a tip is emitted for an attribute iff
that attribute's message is in the attention list, and the two lists
have the same length. -/
theorem c9_two_paths_agree (r : PatientReading) (m : Classifier) (cat : Attr)
    (hcat : cat ∈ categories) :
    (tipText cat ∈ (evaluate r m).tips_shown ↔
      attentionMsg cat ∈ (evaluate r m).attention_needed) ∧
    (evaluate r m).tips_shown.length = (evaluate r m).attention_needed.length := by
  have h1 : (evaluate r m).attention_needed = (outAttrs r).map attentionMsg := by
    show (chart r).2 = (outAttrs r).map attentionMsg
    rw [chart_eq]
  have h2 : (evaluate r m).tips_shown = (outAttrs r).map tipText := tipsShown_eq r
  have ho : outAttrs r
      = categories.filter (fun c => out_of_range c (patient_values r c)) := rfl
  rw [h1, h2, ho]
  refine ⟨?_, by simp⟩
  rw [mem_map_filter_iff tipText tipText_injective _ cat hcat,
    mem_map_filter_iff attentionMsg attentionMsg_injective _ cat hcat]

theorem c9_two_paths_agree_witness :
    (tipText Attr.glucose
        ∈ (evaluate ⟨110, 80, 85, 22, 35, "Narowal"⟩ ⟨fun _ => 0, none⟩).tips_shown ↔
      attentionMsg Attr.glucose
        ∈ (evaluate ⟨110, 80, 85, 22, 35, "Narowal"⟩ ⟨fun _ => 0, none⟩).attention_needed) ∧
    (evaluate ⟨110, 80, 85, 22, 35, "Narowal"⟩ ⟨fun _ => 0, none⟩).tips_shown.length
      = (evaluate ⟨110, 80, 85, 22, 35, "Narowal"⟩ ⟨fun _ => 0, none⟩).attention_needed.length :=
  c9_two_paths_agree ⟨110, 80, 85, 22, 35, "Narowal"⟩ ⟨fun _ => 0, none⟩
    Attr.glucose (by decide)

/-- C10: the completeness check compares the location only against the
empty string, so a non-empty location made of whitespace passes and the
full evaluation runs. -/
theorem c10_whitespace_location (i : RawInput) (m : Classifier)
    (g bp ins b a : ℚ)
    (hg : i.glucose = some g) (hbp : i.blood_pressure = some bp)
    (hins : i.insulin = some ins) (hb : i.bmi = some b) (ha : i.age = some a)
    (hne : i.location ≠ "")
    (hws : ∀ c ∈ i.location.data, c.isWhitespace = true) :
    predictAction i m
      = PredictOutcome.report (evaluate ⟨g, bp, ins, b, a, i.location⟩ m) := by
  obtain ⟨og, obp, oins, ob, oa, loc⟩ := i
  simp_all [predictAction]

theorem c10_whitespace_location_witness :
    predictAction ⟨some 110, some 80, some 85, some 22, some 35, " "⟩ ⟨fun _ => 0, none⟩
      = PredictOutcome.report (evaluate ⟨110, 80, 85, 22, 35, " "⟩ ⟨fun _ => 0, none⟩) :=
  c10_whitespace_location ⟨some 110, some 80, some 85, some 22, some 35, " "⟩
    ⟨fun _ => 0, none⟩ 110 80 85 22 35 rfl rfl rfl rfl rfl (by decide) (by decide)

end Diabetes
